import Mathlib

/-!
Shallow embedding of `src/azure-functions/sftp-to-data-lake/sftp-to-data-lake.py`.

The Python module is configuration-driven glue: it loads a YAML document,
resolves a per-vendor container configuration, derives destination blob paths
from a date-shaped regular-expression match, and issues storage operations.
We embed the Python values the code manipulates (`PyVal`), Python dictionary
access (`.get`, subscripting) with its exception behaviour (`Except String`),
the `re.match` call on the fixed pattern `\d{4}/\d{2}/\d{2}$`, and the
handler `main` as a pure function from a request, a configuration-load result
and a destination storage state to an HTTP response, the updated storage state
and a trace of storage operations.
-/

set_option autoImplicit false

namespace SftpToDataLake

/-- The subset of Python values the script manipulates: `None`, strings and
string-keyed dictionaries (as produced by `yaml.safe_load` for this config). -/
inductive PyVal where
  | noneV
  | strV (s : String)
  | dictV (kvs : List (String × PyVal))

/-- Python truthiness: `None` is falsy, a string is truthy iff non-empty,
a dict is truthy iff non-empty. -/
def PyVal.truthy : PyVal → Bool
  | .noneV => false
  | .strV s => !(s == "")
  | .dictV kvs => !kvs.isEmpty

/-- Python `d.get(key)` for a string key: `None` when the key is absent,
`AttributeError` when the receiver is not a dict. -/
def PyVal.getKey : PyVal → String → Except String PyVal
  | .dictV kvs, k =>
    .ok (match kvs.lookup k with
         | some v => v
         | none => .noneV)
  | .noneV, _ => .error "'NoneType' object has no attribute 'get'"
  | .strV _, _ => .error "'str' object has no attribute 'get'"

/-- Python `d.get(key)` where the key expression may be `None` (a missing
request parameter): string keys never equal `None`, so a `None` key gives
`None` on any dict. -/
def PyVal.getOptKey : PyVal → Option String → Except String PyVal
  | v, some k => v.getKey k
  | .dictV _, none => .ok .noneV
  | .noneV, none => .error "'NoneType' object has no attribute 'get'"
  | .strV _, none => .error "'str' object has no attribute 'get'"

/-- Python `d.get(key, default)`: the stored value when the key is present
(even when that value is `None`), the default otherwise. -/
def PyVal.getD : PyVal → String → PyVal → Except String PyVal
  | .dictV kvs, k, d =>
    .ok (match kvs.lookup k with
         | some v => v
         | none => d)
  | .noneV, _, _ => .error "'NoneType' object has no attribute 'get'"
  | .strV _, _, _ => .error "'str' object has no attribute 'get'"

/-- Python subscripting `d[key]`: `KeyError` (whose `str` is the quoted key)
when absent, `TypeError` when the receiver is not a dict. -/
def PyVal.item : PyVal → String → Except String PyVal
  | .dictV kvs, k =>
    match kvs.lookup k with
    | some v => .ok v
    | none => .error ("'" ++ k ++ "'")
  | .noneV, _ => .error "'NoneType' object is not subscriptable"
  | .strV _, _ => .error "string indices must be integers"

/-- Python `repr` of a string (simplified: quote choice as in CPython, no
escaping of control characters, which the configuration values do not use). -/
def pyReprStr (s : String) : String :=
  if s.contains (Char.ofNat 39) && !(s.contains (Char.ofNat 34)) then
    "\"" ++ s ++ "\""
  else
    String.singleton (Char.ofNat 39) ++ s ++ String.singleton (Char.ofNat 39)

mutual

/-- Python `str()` of a value, as used by f-string interpolation. -/
def PyVal.str : PyVal → String
  | .noneV => "None"
  | .strV s => s
  | .dictV kvs => "\x7b" ++ pyReprEntries kvs ++ "\x7d"

/-- `repr` of the entries of a dict, comma-separated. -/
def pyReprEntries : List (String × PyVal) → String
  | [] => ""
  | [(k, v)] => pyReprStr k ++ ": " ++ pyReprVal v
  | (k, v) :: rest => pyReprStr k ++ ": " ++ pyReprVal v ++ ", " ++ pyReprEntries rest

/-- Python `repr()` of a value (inside a dict, strings are quoted). -/
def pyReprVal : PyVal → String
  | .noneV => "None"
  | .strV s => pyReprStr s
  | .dictV kvs => "\x7b" ++ pyReprEntries kvs ++ "\x7d"

end

/-- `re.match(r"\d{4}/\d{2}/\d{2}$", s)` on the character list of `s`:
`re.match` anchors at the start of the string, the pattern is fixed-width,
and `$` matches at the end of the string or just before a trailing newline.
On success, `group(0)` is the ten matched characters. -/
def pyMatchDateChars : List Char → Option (List Char)
  | a :: b :: c :: d :: s1 :: e :: f :: s2 :: g :: h :: rest =>
    if a.isDigit && b.isDigit && c.isDigit && d.isDigit && (s1 == '/') &&
       e.isDigit && f.isDigit && (s2 == '/') && g.isDigit && h.isDigit &&
       (rest == [] || rest == ['\n']) then
      some [a, b, c, d, s1, e, f, s2, g, h]
    else
      none
  | _ => none

/-- `re.match(r"\d{4}/\d{2}/\d{2}$", s)` returning `group(0)` on success. -/
def pyMatchDate (s : String) : Option String :=
  (pyMatchDateChars s.data).map fun cs => String.mk cs

/-- `os.path.join(a, b)` on POSIX for two components. -/
def pyPathJoin (a b : String) : String :=
  if b.startsWith "/" then b
  else if a == "" then b
  else if a.endsWith "/" then a ++ b
  else a ++ "/" ++ b

/-- State of the destination storage account: the existing containers and the
blobs (container, blob path) created in them. -/
structure BlobStore where
  containers : List String
  blobs : List (String × String)
deriving DecidableEq, Repr

/-- A trace entry for each storage SDK call the script performs. -/
inductive StorageOp where
  | containerExistsCheck (container : String)
  | createContainer (container : String)
  | createBlob (container path : String)
  | copyBlob (sourceBlobPath destinationContainer destinationBlobPath : String)
deriving DecidableEq, Repr

/-- `create_virtual_folder`: create the container if it does not exist, then
create an empty marker blob at the virtual folder path. Returns the updated
destination store and the trace of SDK calls. -/
def create_virtual_folder (store : BlobStore) (container_name virtual_folder_path : String) :
    BlobStore × List StorageOp :=
  if store.containers.contains container_name then
    ({ store with blobs := (container_name, virtual_folder_path) :: store.blobs },
     [StorageOp.containerExistsCheck container_name,
      StorageOp.createBlob container_name virtual_folder_path])
  else
    ({ containers := container_name :: store.containers,
       blobs := (container_name, virtual_folder_path) :: store.blobs },
     [StorageOp.containerExistsCheck container_name,
      StorageOp.createContainer container_name,
      StorageOp.createBlob container_name virtual_folder_path])

/-- `move_blob_with_virtual_folder`: match the source blob name against the
date pattern; on failure return with no storage operation; on success build
the virtual folder path `folder_mnemonic/date_str`, ensure the virtual
folder, and copy the source blob to
`virtual_folder_path ++ "/" ++ source_blob_name` in the destination
container. -/
def move_blob_with_virtual_folder (source_container source_blob_name : String)
    (destStore : BlobStore) (destination_container folder_mnemonic : String) :
    BlobStore × List StorageOp :=
  match pyMatchDate source_blob_name with
  | none => (destStore, [])
  | some date_str =>
    let virtual_folder_path := folder_mnemonic ++ "/" ++ date_str
    let p := create_virtual_folder destStore destination_container virtual_folder_path
    let source_blob_path := pyPathJoin source_container source_blob_name
    let destination_blob_path := virtual_folder_path ++ "/" ++ source_blob_name
    ({ p.1 with blobs := (destination_container, destination_blob_path) :: p.1.blobs },
     p.2 ++ [StorageOp.copyBlob source_blob_path destination_container destination_blob_path])

/-- `get_container_config(config, vendor_name, container_name)`: look up the
vendor then the container (returning `None` when either is missing or falsy),
then project the four fields into a fresh dict, with `files` defaulting to an
empty dict. Subscripting a container entry that lacks a required key raises
`KeyError`. The projected dict keys use underscores, in the literal's order. -/
def get_container_config (config : PyVal) (vendor_name container_name : Option String) :
    Except String (Option PyVal) :=
  match config.getD "vendors" (PyVal.dictV []) with
  | .error e => .error e
  | .ok vendors =>
    match vendors.getOptKey vendor_name with
    | .error e => .error e
    | .ok vendor_config =>
      if !vendor_config.truthy then .ok none
      else
        match vendor_config.getOptKey container_name with
        | .error e => .error e
        | .ok container_config =>
          if !container_config.truthy then .ok none
          else
            match container_config.item "destination-container" with
            | .error e => .error e
            | .ok destination_container =>
              match container_config.item "folder-mnemonic" with
              | .error e => .error e
              | .ok folder_mnemonic =>
                match container_config.item "source-container" with
                | .error e => .error e
                | .ok source_container =>
                  match container_config.getD "files" (PyVal.dictV []) with
                  | .error e => .error e
                  | .ok file_configs =>
                    .ok (some (PyVal.dictV
                      [("source_container", source_container),
                       ("destination_container", destination_container),
                       ("folder_mnemonic", folder_mnemonic),
                       ("file_configs", file_configs)]))

/-- The request: its query parameters, as a string-keyed association list.
`msg.params.get(k)` yields `none` when the parameter is missing. -/
structure HttpRequest where
  params : List (String × String)

/-- `func.HttpResponse(body, status_code)`. -/
structure HttpResponse where
  body : String
  status_code : Nat
deriving DecidableEq, Repr

/-- `msg.params.get(name)`. -/
def HttpRequest.getParam (msg : HttpRequest) (name : String) : Option String :=
  msg.params.lookup name

/-- The source blob name derived inside the per-file loop of `main`:
`file_config["file-mnemonic"]` (KeyError when absent), then the optional
`file_config.get("file-pattern")`, then
`f"{file_mnemonic}*" if file_pattern else f"{file_mnemonic}.csv"`. -/
def candidateOfEntry (file_config : PyVal) : Except String String :=
  match file_config.item "file-mnemonic" with
  | .error e => .error e
  | .ok file_mnemonic =>
    match file_config.getKey "file-pattern" with
    | .error e => .error e
    | .ok file_pattern =>
      .ok (if file_pattern.truthy then file_mnemonic.str ++ "*"
           else file_mnemonic.str ++ ".csv")

/-- The `for file_name, file_config in container_config["file_configs"].items()`
loop body of `main`, over the entries in order. Each iteration derives the
candidate source blob name, evaluates the call arguments
`container_config["source-container"]`, `container_config["destination-container"]`,
`container_config["folder-mnemonic"]` left to right (each may raise `KeyError`),
then runs `move_blob_with_virtual_folder`. Returns the destination store and
accumulated operation trace, and the exception text if one was raised. -/
def processFiles (container_config : PyVal) (entries : List (String × PyVal))
    (destStore : BlobStore) (ops : List StorageOp) :
    (BlobStore × List StorageOp) × Option String :=
  match entries with
  | [] => ((destStore, ops), none)
  | (_, file_config) :: rest =>
    match candidateOfEntry file_config with
    | .error e => ((destStore, ops), some e)
    | .ok source_blob_name =>
      match container_config.item "source-container" with
      | .error e => ((destStore, ops), some e)
      | .ok sc =>
        match container_config.item "destination-container" with
        | .error e => ((destStore, ops), some e)
        | .ok dc =>
          match container_config.item "folder-mnemonic" with
          | .error e => ((destStore, ops), some e)
          | .ok fm =>
            let p := move_blob_with_virtual_folder sc.str source_blob_name destStore dc.str fm.str
            processFiles container_config rest p.1 (ops ++ p.2)

/-- The `try` body of `main` together with the point at which each exception
is raised: configuration loading (the `loadConfig` argument is the outcome of
`yaml.safe_load(open('config.yaml'))`), parameter extraction, configuration
lookup (early `400` return when not found), connection-string subscripting,
and the per-file loop. Returns the final destination store and operation
trace, and either the response of a `return` statement or the text of the
raised exception. -/
def mainExec (loadConfig : Except String PyVal) (msg : HttpRequest) (destStore : BlobStore) :
    (BlobStore × List StorageOp) × Except String HttpResponse :=
  match loadConfig with
  | .error e => ((destStore, []), .error e)
  | .ok config =>
    let vendor_name := msg.getParam "vendor"
    let container_name := msg.getParam "container"
    match get_container_config config vendor_name container_name with
    | .error e => ((destStore, []), .error e)
    | .ok none =>
      ((destStore, []),
       .ok { body := "Error: Configuration not found for vendor or container.", status_code := 400 })
    | .ok (some container_config) =>
      match config.item "source-storage-connection-string" with
      | .error e => ((destStore, []), .error e)
      | .ok _ =>
        match config.item "destination-storage-connection-string" with
        | .error e => ((destStore, []), .error e)
        | .ok _ =>
          match container_config.item "file_configs" with
          | .error e => ((destStore, []), .error e)
          | .ok fileConfigsVal =>
            match fileConfigsVal with
            | PyVal.dictV entries =>
              match processFiles container_config entries destStore [] with
              | (st, none) =>
                (st, .ok { body := "Blobs moved successfully with virtual folder structure.",
                           status_code := 200 })
              | (st, some e) => (st, .error e)
            | PyVal.noneV =>
              ((destStore, []), .error "'NoneType' object has no attribute 'items'")
            | PyVal.strV _ =>
              ((destStore, []), .error "'str' object has no attribute 'items'")

/-- `main`: run the `try` body; on success return its response, on an
exception `e` return
`func.HttpResponse(f"Error processing request: {str(e)}", status_code=500)`. -/
def main (loadConfig : Except String PyVal) (msg : HttpRequest) (destStore : BlobStore) :
    HttpResponse × BlobStore × List StorageOp :=
  match mainExec loadConfig msg destStore with
  | ((st, ops), .ok resp) => (resp, st, ops)
  | ((st, ops), .error e) =>
    ({ body := "Error processing request: " ++ e, status_code := 500 }, st, ops)

/-! Claim-side definitions: predicates used to state the claims, and the
concrete configuration document of the spec's acme/orders scenario. -/

/-- A character list that is exactly a `\d{4}/\d{2}/\d{2}` fragment. -/
def isExactDateFragmentChars : List Char → Bool
  | [a, b, c, d, s1, e, f, s2, g, h] =>
    a.isDigit && b.isDigit && c.isDigit && d.isDigit && (s1 == '/') &&
    e.isDigit && f.isDigit && (s2 == '/') && g.isDigit && h.isDigit
  | _ => false

/-- The claim's reading of the pattern: anchored at the end only, so any
string whose last ten characters form a date fragment qualifies, whatever
precedes them. -/
def endsWithDateFragment (s : String) : Bool :=
  decide (10 ≤ s.data.length) && isExactDateFragmentChars (s.data.drop (s.data.length - 10))

/-- Dictionary lookup with a possibly-`None` key, at the `Option` level:
`none` exactly when `d.get(key)` would fall back to `None` because the key
is missing (or is itself `None`). -/
def lookupOpt (kvs : List (String × PyVal)) (k : Option String) : Option PyVal :=
  match k with
  | none => none
  | some s => kvs.lookup s

/-- The configuration document of the spec's scenario: vendor `acme`,
container `orders`, one file entry with mnemonic `orders` and a `None`
pattern. -/
def acmeOrdersConfig : PyVal :=
  PyVal.dictV
    [("source-storage-connection-string", PyVal.strV "srcconn"),
     ("destination-storage-connection-string", PyVal.strV "dstconn"),
     ("vendors", PyVal.dictV
       [("acme", PyVal.dictV
         [("orders", PyVal.dictV
           [("source-container", PyVal.strV "sc"),
            ("destination-container", PyVal.strV "dc"),
            ("folder-mnemonic", PyVal.strV "fm"),
            ("files", PyVal.dictV
              [("f1", PyVal.dictV
                 [("file-mnemonic", PyVal.strV "orders"),
                  ("file-pattern", PyVal.noneV)])])])])])]

/-! Helper lemmas shared by the claim theorems. -/

/-- `d.get(k)` on a dict, described through `lookupOpt`. -/
theorem getOptKey_dictV (kvs : List (String × PyVal)) (k : Option String) :
    (PyVal.dictV kvs).getOptKey k =
      .ok (match lookupOpt kvs k with
           | some v => v
           | none => PyVal.noneV) := by
  cases k with
  | none => rfl
  | some s => rfl

/-- A non-empty dict is truthy. -/
theorem truthy_dictV_cons (kv : String × PyVal) (rest : List (String × PyVal)) :
    (PyVal.dictV (kv :: rest)).truthy = true := by
  simp [PyVal.truthy]

/-- Shape of a successful `re.match` on the date pattern: the group is an
exact date fragment and the input is the group, possibly followed by one
trailing newline. -/
theorem pyMatchDateChars_eq_some {cs r : List Char} (h : pyMatchDateChars cs = some r) :
    isExactDateFragmentChars r = true ∧ (cs = r ∨ cs = r ++ ['\n']) := by
  unfold pyMatchDateChars at h
  split at h
  case h_2 => exact absurd h (by simp)
  case h_1 a b c d s1 e f s2 g h10 rest =>
    split at h
    case isFalse => exact absurd h (by simp)
    case isTrue hcond =>
      simp only [Option.some.injEq] at h
      subst h
      simp only [Bool.and_eq_true, Bool.or_eq_true] at hcond
      constructor
      · simp [isExactDateFragmentChars, hcond.1.1.1.1.1.1.1.1.1.1, hcond.1.1.1.1.1.1.1.1.1.2,
          hcond.1.1.1.1.1.1.1.1.2, hcond.1.1.1.1.1.1.1.2, hcond.1.1.1.1.1.1.2,
          hcond.1.1.1.1.1.2, hcond.1.1.1.1.2, hcond.1.1.1.2, hcond.1.1.2, hcond.1.2]
      · rcases hcond.2 with hrest | hrest
        · left
          simp only [beq_iff_eq] at hrest
          simp [hrest]
        · right
          simp only [beq_iff_eq] at hrest
          simp [hrest]

/-- An exact date fragment ends in a digit. -/
theorem isExactDateFragmentChars_getLast {r : List Char}
    (h : isExactDateFragmentChars r = true) :
    ∃ c, r.getLast? = some c ∧ c.isDigit = true := by
  unfold isExactDateFragmentChars at h
  split at h
  case h_2 => exact absurd h (by simp)
  case h_1 a b c d s1 e f s2 g h10 =>
    simp only [Bool.and_eq_true] at h
    exact ⟨h10, by simp, h.2⟩

/-- A character list ending in `*` never matches the date pattern. -/
theorem pyMatchDateChars_append_star (cs : List Char) :
    pyMatchDateChars (cs ++ ['*']) = none := by
  cases hm : pyMatchDateChars (cs ++ ['*']) with
  | none => rfl
  | some r =>
    exfalso
    obtain ⟨hfrag, hshape⟩ := pyMatchDateChars_eq_some hm
    obtain ⟨c, hlast, hdig⟩ := isExactDateFragmentChars_getLast hfrag
    rcases hshape with hcs | hcs
    · have h1 : (cs ++ ['*']).getLast? = some '*' := List.getLast?_concat cs
      rw [hcs, hlast] at h1
      simp only [Option.some.injEq] at h1
      rw [h1] at hdig
      exact absurd hdig (by decide)
    · have h1 : (cs ++ ['*']).getLast? = some '*' := List.getLast?_concat cs
      have h2 : (r ++ ['\n']).getLast? = some '\n' := List.getLast?_concat r
      rw [hcs, h2] at h1
      exact absurd h1 (by decide)

/-- A string ending in `*` never matches the date pattern. -/
theorem pyMatchDate_append_star (m : String) : pyMatchDate (m ++ "*") = none := by
  unfold pyMatchDate
  have hdata : (m ++ "*").data = m.data ++ ['*'] := String.data_append m "*"
  rw [hdata, pyMatchDateChars_append_star]
  rfl

/-- A name that fails the date match makes `move_blob_with_virtual_folder`
a no-op. -/
theorem move_blob_no_match (sc name : String) (st : BlobStore) (dc fm : String)
    (h : pyMatchDate name = none) :
    move_blob_with_virtual_folder sc name st dc fm = (st, []) := by
  unfold move_blob_with_virtual_folder
  rw [h]

/-! Claim theorems. -/

/-- C1: the spec's scenario (vendor `acme`, container `orders`, one file entry
with mnemonic `orders` and a `None` pattern) is claimed to return `200` with
the generic success body even though the candidate `orders.csv` fails the date
pattern. The code instead evaluates `container_config["source-container"]` on
the projection returned by `get_container_config`, whose keys use underscores,
so the first file entry raises `KeyError('source-container')` before any
pattern check, and the handler answers `500` with that exception text and
performs no storage operation. -/
theorem c1_acme_orders_scenario_raises_keyerror :
    main (.ok acmeOrdersConfig)
        { params := [("vendor", "acme"), ("container", "orders")] }
        { containers := [], blobs := [] } =
      ({ body := "Error processing request: 'source-container'", status_code := 500 },
       { containers := [], blobs := [] }, []) := by
  rfl

/-- C3: for every file entry whose `file-pattern` is present and truthy, the
candidate name is `"{file-mnemonic}*"`, which never satisfies the
date-fragment validation, so `move_blob_with_virtual_folder` performs no
folder creation and no copy for it. -/
theorem c3_wildcard_candidate_never_moves (file_config p : PyVal) (name : String)
    (hp : file_config.getKey "file-pattern" = .ok p)
    (hpt : p.truthy = true)
    (hc : candidateOfEntry file_config = .ok name) :
    (∃ m, name = m ++ "*") ∧ pyMatchDate name = none ∧
      ∀ sc st dc fm, move_blob_with_virtual_folder sc name st dc fm = (st, []) := by
  cases hitem : file_config.item "file-mnemonic" with
  | error e =>
    simp [candidateOfEntry, hitem] at hc
  | ok m =>
    simp [candidateOfEntry, hitem, hp, hpt] at hc
    subst hc
    exact ⟨⟨m.str, rfl⟩, pyMatchDate_append_star m.str,
      fun sc st dc fm =>
        move_blob_no_match sc (m.str ++ "*") st dc fm (pyMatchDate_append_star m.str)⟩

/-- C3 witness: a concrete entry with mnemonic `orders` and truthy pattern. -/
theorem c3_wildcard_candidate_never_moves_witness :
    (PyVal.dictV [("file-mnemonic", PyVal.strV "orders"),
                  ("file-pattern", PyVal.strV "ord_")]).getKey "file-pattern" =
        .ok (PyVal.strV "ord_") ∧
    (PyVal.strV "ord_").truthy = true ∧
    candidateOfEntry (PyVal.dictV [("file-mnemonic", PyVal.strV "orders"),
                                   ("file-pattern", PyVal.strV "ord_")]) = .ok "orders*" ∧
    ((∃ m, "orders*" = m ++ "*") ∧ pyMatchDate "orders*" = none ∧
      ∀ sc st dc fm, move_blob_with_virtual_folder sc "orders*" st dc fm = (st, [])) :=
  ⟨rfl, rfl, rfl,
   c3_wildcard_candidate_never_moves
     (PyVal.dictV [("file-mnemonic", PyVal.strV "orders"),
                   ("file-pattern", PyVal.strV "ord_")])
     (PyVal.strV "ord_") "orders*" rfl rfl rfl⟩

/-- C6: when the source blob name matches the date pattern with fragment `t`,
the virtual folder path is `folder_mnemonic ++ "/" ++ t`, the marker blob and
container creation use exactly that path, and the copy targets
`virtual_folder_path ++ "/" ++ source_blob_name` in the destination
container. -/
theorem c6_destination_paths (sc s t : String) (st : BlobStore) (dc fm : String)
    (h : pyMatchDate s = some t) :
    move_blob_with_virtual_folder sc s st dc fm =
      ({ (create_virtual_folder st dc (fm ++ "/" ++ t)).1 with
         blobs := (dc, (fm ++ "/" ++ t) ++ "/" ++ s) ::
                  (create_virtual_folder st dc (fm ++ "/" ++ t)).1.blobs },
       (create_virtual_folder st dc (fm ++ "/" ++ t)).2 ++
         [StorageOp.copyBlob (pyPathJoin sc s) dc ((fm ++ "/" ++ t) ++ "/" ++ s)]) := by
  unfold move_blob_with_virtual_folder
  rw [h]

/-- C6 witness: the fragment `2024/01/02` on an empty destination store. -/
theorem c6_destination_paths_witness :
    pyMatchDate "2024/01/02" = some "2024/01/02" ∧
    move_blob_with_virtual_folder "sc" "2024/01/02"
        { containers := [], blobs := [] } "dc" "fm" =
      ({ (create_virtual_folder { containers := [], blobs := [] } "dc"
            ("fm" ++ "/" ++ "2024/01/02")).1 with
         blobs := ("dc", ("fm" ++ "/" ++ "2024/01/02") ++ "/" ++ "2024/01/02") ::
                  (create_virtual_folder { containers := [], blobs := [] } "dc"
                     ("fm" ++ "/" ++ "2024/01/02")).1.blobs },
       (create_virtual_folder { containers := [], blobs := [] } "dc"
          ("fm" ++ "/" ++ "2024/01/02")).2 ++
         [StorageOp.copyBlob (pyPathJoin "sc" "2024/01/02") "dc"
            (("fm" ++ "/" ++ "2024/01/02") ++ "/" ++ "2024/01/02")]) :=
  ⟨rfl, c6_destination_paths "sc" "2024/01/02" "2024/01/02"
    { containers := [], blobs := [] } "dc" "fm" rfl⟩

/-- C8: when the candidate name fails the date-fragment check,
`move_blob_with_virtual_folder` returns normally with the store unchanged and
an empty operation trace, and the loop goes on to the remaining file entries
exactly as if the entry were not there (provided the entry and the
container-configuration reads themselves raise no exception). -/
theorem c8_mismatch_silent_skip (container_config file_config : PyVal) (k name : String)
    (rest : List (String × PyVal)) (st : BlobStore) (ops : List StorageOp)
    (hc : candidateOfEntry file_config = .ok name)
    (hm : pyMatchDate name = none) :
    (∀ sc dc fm, move_blob_with_virtual_folder sc name st dc fm = (st, [])) ∧
    (∀ sc dc fm,
       container_config.item "source-container" = .ok sc →
       container_config.item "destination-container" = .ok dc →
       container_config.item "folder-mnemonic" = .ok fm →
       processFiles container_config ((k, file_config) :: rest) st ops =
         processFiles container_config rest st ops) := by
  constructor
  · exact fun sc dc fm => move_blob_no_match sc name st dc fm hm
  · intro sc dc fm hsc hdc hfm
    have hmb : move_blob_with_virtual_folder sc.str name st dc.str fm.str = (st, []) :=
      move_blob_no_match sc.str name st dc.str fm.str hm
    simp only [processFiles, hc, hsc, hdc, hfm, hmb, List.append_nil]

/-- C8 witness: a concrete entry whose candidate `orders.csv` fails the
pattern, inside a container configuration holding the three path fields. -/
theorem c8_mismatch_silent_skip_witness :
    candidateOfEntry (PyVal.dictV [("file-mnemonic", PyVal.strV "orders")]) =
        .ok "orders.csv" ∧
    pyMatchDate "orders.csv" = none ∧
    ((∀ sc dc fm, move_blob_with_virtual_folder sc "orders.csv"
        { containers := [], blobs := [] } dc fm =
        ({ containers := [], blobs := [] }, [])) ∧
     (∀ sc dc fm,
        (PyVal.dictV [("source-container", PyVal.strV "s"),
                      ("destination-container", PyVal.strV "d"),
                      ("folder-mnemonic", PyVal.strV "f")]).item "source-container" = .ok sc →
        (PyVal.dictV [("source-container", PyVal.strV "s"),
                      ("destination-container", PyVal.strV "d"),
                      ("folder-mnemonic", PyVal.strV "f")]).item "destination-container" = .ok dc →
        (PyVal.dictV [("source-container", PyVal.strV "s"),
                      ("destination-container", PyVal.strV "d"),
                      ("folder-mnemonic", PyVal.strV "f")]).item "folder-mnemonic" = .ok fm →
        processFiles (PyVal.dictV [("source-container", PyVal.strV "s"),
                                   ("destination-container", PyVal.strV "d"),
                                   ("folder-mnemonic", PyVal.strV "f")])
            [("f1", PyVal.dictV [("file-mnemonic", PyVal.strV "orders")])]
            { containers := [], blobs := [] } [] =
          processFiles (PyVal.dictV [("source-container", PyVal.strV "s"),
                                     ("destination-container", PyVal.strV "d"),
                                     ("folder-mnemonic", PyVal.strV "f")])
            [] { containers := [], blobs := [] } [])) :=
  ⟨rfl, rfl, c8_mismatch_silent_skip _ _ "f1" "orders.csv" [] _ [] rfl rfl⟩

/-- C9: every exception raised inside the `try` body surfaces as a `500`
response whose body embeds the exception text, with the storage state at the
point of the exception preserved; when the body returns a response, `main`
returns it unchanged. `main` is total, so no exception escapes the handler,
and each request is evaluated once, so no retry occurs. -/
theorem c9_exceptions_become_500 (loadConfig : Except String PyVal)
    (msg : HttpRequest) (st : BlobStore) :
    (∀ st2 e, mainExec loadConfig msg st = (st2, .error e) →
       main loadConfig msg st =
         ({ body := "Error processing request: " ++ e, status_code := 500 }, st2.1, st2.2)) ∧
    (∀ st2 r, mainExec loadConfig msg st = (st2, .ok r) →
       main loadConfig msg st = (r, st2.1, st2.2)) := by
  constructor
  · intro st2 e h
    obtain ⟨s2, o2⟩ := st2
    unfold main
    rw [h]
  · intro st2 r h
    obtain ⟨s2, o2⟩ := st2
    unfold main
    rw [h]

/-- C9 witness: a failed configuration load (malformed YAML) yields a `500`
with the exception text in the body. -/
theorem c9_exceptions_become_500_witness :
    mainExec (.error "while parsing a block mapping") { params := [] }
        { containers := [], blobs := [] } =
      (({ containers := [], blobs := [] }, []), .error "while parsing a block mapping") ∧
    main (.error "while parsing a block mapping") { params := [] }
        { containers := [], blobs := [] } =
      ({ body := "Error processing request: while parsing a block mapping",
         status_code := 500 },
       { containers := [], blobs := [] }, []) :=
  ⟨rfl,
   (c9_exceptions_become_500 (.error "while parsing a block mapping") { params := [] }
      { containers := [], blobs := [] }).1
     ({ containers := [], blobs := [] }, []) "while parsing a block mapping" rfl⟩

/-- An exact date fragment, possibly followed by one trailing newline,
matches the pattern with the fragment as the group. -/
theorem pyMatchDateChars_of_exact {frag rest : List Char}
    (h : isExactDateFragmentChars frag = true) (hrest : rest = [] ∨ rest = ['\n']) :
    pyMatchDateChars (frag ++ rest) = some frag := by
  unfold isExactDateFragmentChars at h
  split at h
  case h_2 => exact absurd h (by simp)
  case h_1 a b c d s1 e f s2 g h10 =>
    simp only [Bool.and_eq_true] at h
    rcases hrest with rfl | rfl <;>
      simp [pyMatchDateChars, h.1.1.1.1.1.1.1.1.1, h.1.1.1.1.1.1.1.1.2, h.1.1.1.1.1.1.1.2,
        h.1.1.1.1.1.1.2, h.1.1.1.1.1.2, h.1.1.1.1.2, h.1.1.1.2, h.1.1.2, h.1.2, h.2]

/-- C2 counterexample: `"x1234/12/12"` ends with a date fragment (so the
claim says the match succeeds), yet `re.match` anchors at the start of the
string and fails, and `move_blob_with_virtual_folder` does nothing for it. -/
theorem c2_counterexample_prefix_rejected :
    endsWithDateFragment "x1234/12/12" = true ∧
    pyMatchDate "x1234/12/12" = none ∧
    move_blob_with_virtual_folder "sc" "x1234/12/12"
        { containers := [], blobs := [] } "dc" "fm" =
      ({ containers := [], blobs := [] }, []) :=
  ⟨rfl, rfl, rfl⟩

/-- C2 amended: the date match succeeds exactly on strings that are wholly a
`\d{4}/\d{2}/\d{2}` fragment, or such a fragment followed by a single
trailing newline (`re.match` anchors at the start; `$` also accepts one
trailing newline); arbitrary prefixes are rejected. -/
theorem c2_amended_match_anchored_at_start (s : String) :
    (pyMatchDate s).isSome = true ↔
      ∃ frag : List Char, isExactDateFragmentChars frag = true ∧
        (s.data = frag ∨ s.data = frag ++ ['\n']) := by
  constructor
  · intro h
    unfold pyMatchDate at h
    cases hm : pyMatchDateChars s.data with
    | none => rw [hm] at h; simp at h
    | some r =>
      obtain ⟨hfrag, hshape⟩ := pyMatchDateChars_eq_some hm
      exact ⟨r, hfrag, hshape⟩
  · rintro ⟨frag, hfrag, hshape⟩
    unfold pyMatchDate
    rcases hshape with hs | hs
    · have hmm := pyMatchDateChars_of_exact hfrag (Or.inl rfl)
      rw [List.append_nil] at hmm
      rw [hs, hmm]
      rfl
    · have hmm := pyMatchDateChars_of_exact hfrag (Or.inr rfl)
      rw [hs, hmm]
      rfl

/-- C4: when the vendor is absent from the vendors mapping (including a
missing `vendor` parameter) or the container is absent from the vendor's
mapping, `get_container_config` returns `None` and the handler answers `400`
with the exact configuration-not-found body. -/
theorem c4_absent_vendor_or_container_400 (config : PyVal)
    (vkvs : List (String × PyVal)) (msg : HttpRequest)
    (hv : config.getD "vendors" (PyVal.dictV []) = .ok (PyVal.dictV vkvs))
    (habs : lookupOpt vkvs (msg.getParam "vendor") = none ∨
            ∃ ckvs, lookupOpt vkvs (msg.getParam "vendor") = some (PyVal.dictV ckvs) ∧
              lookupOpt ckvs (msg.getParam "container") = none) :
    get_container_config config (msg.getParam "vendor") (msg.getParam "container") =
      .ok none ∧
    ∀ st, main (.ok config) msg st =
      ({ body := "Error: Configuration not found for vendor or container.",
         status_code := 400 }, st, []) := by
  have hgcc : get_container_config config (msg.getParam "vendor")
      (msg.getParam "container") = .ok none := by
    rcases habs with h | ⟨ckvs, hvend, hcont⟩
    · simp [get_container_config, hv, getOptKey_dictV, h, PyVal.truthy]
    · cases ckvs with
      | nil =>
        simp [get_container_config, hv, getOptKey_dictV, hvend, PyVal.truthy]
      | cons kv rest =>
        simp [get_container_config, hv, getOptKey_dictV, hvend, hcont, PyVal.truthy]
  refine ⟨hgcc, fun st => ?_⟩
  simp only [main, mainExec, hgcc]

/-- C4 witness: an empty vendors mapping and a request with no parameters. -/
theorem c4_absent_vendor_or_container_400_witness :
    get_container_config (PyVal.dictV [("vendors", PyVal.dictV [])]) none none =
      .ok none ∧
    main (.ok (PyVal.dictV [("vendors", PyVal.dictV [])])) { params := [] }
        { containers := [], blobs := [] } =
      ({ body := "Error: Configuration not found for vendor or container.",
         status_code := 400 }, { containers := [], blobs := [] }, []) := by
  have h := c4_absent_vendor_or_container_400 (PyVal.dictV [("vendors", PyVal.dictV [])])
    [] { params := [] } rfl (Or.inl rfl)
  exact ⟨h.1, h.2 { containers := [], blobs := [] }⟩

/-- C5: for a vendor and container present in the configuration whose entry
holds the three required path keys, `get_container_config` returns the
four-field projection with the values copied verbatim, and `files` defaulting
to an empty dict when absent. -/
theorem c5_projection_verbatim (config : PyVal)
    (vkvs ckvs eckvs : List (String × PyVal)) (vendor container : Option String)
    (sv dv fv : PyVal)
    (hv : config.getD "vendors" (PyVal.dictV []) = .ok (PyVal.dictV vkvs))
    (hvend : lookupOpt vkvs vendor = some (PyVal.dictV ckvs))
    (hcont : lookupOpt ckvs container = some (PyVal.dictV eckvs))
    (hd : eckvs.lookup "destination-container" = some dv)
    (hf : eckvs.lookup "folder-mnemonic" = some fv)
    (hs : eckvs.lookup "source-container" = some sv) :
    get_container_config config vendor container =
      .ok (some (PyVal.dictV
        [("source_container", sv),
         ("destination_container", dv),
         ("folder_mnemonic", fv),
         ("file_configs",
          match eckvs.lookup "files" with
          | some filesv => filesv
          | none => PyVal.dictV [])])) := by
  have hck : ckvs ≠ [] := by
    intro hnil
    rw [hnil] at hcont
    cases hcp : container with
    | none => rw [hcp] at hcont; exact absurd hcont (by simp [lookupOpt])
    | some c => rw [hcp] at hcont; exact absurd hcont (by simp [lookupOpt])
  have hek : eckvs ≠ [] := by
    intro hnil
    rw [hnil] at hd
    exact absurd hd (by simp)
  unfold get_container_config
  rw [hv]
  dsimp only
  rw [getOptKey_dictV, hvend]
  dsimp only
  cases ckvs with
  | nil => exact absurd rfl hck
  | cons kv rest =>
    dsimp only [PyVal.truthy]
    rw [getOptKey_dictV, hcont]
    dsimp only
    cases eckvs with
    | nil => exact absurd rfl hek
    | cons ekv erest =>
      dsimp only [PyVal.truthy, PyVal.item, PyVal.getD]
      rw [hd, hf, hs]
      rfl

/-- C5 witness: the acme/orders configuration document. -/
theorem c5_projection_verbatim_witness :
    get_container_config acmeOrdersConfig (some "acme") (some "orders") =
      .ok (some (PyVal.dictV
        [("source_container", PyVal.strV "sc"),
         ("destination_container", PyVal.strV "dc"),
         ("folder_mnemonic", PyVal.strV "fm"),
         ("file_configs", PyVal.dictV
           [("f1", PyVal.dictV
              [("file-mnemonic", PyVal.strV "orders"),
               ("file-pattern", PyVal.noneV)])])])) :=
  c5_projection_verbatim acmeOrdersConfig
    [("acme", PyVal.dictV
       [("orders", PyVal.dictV
          [("source-container", PyVal.strV "sc"),
           ("destination-container", PyVal.strV "dc"),
           ("folder-mnemonic", PyVal.strV "fm"),
           ("files", PyVal.dictV
             [("f1", PyVal.dictV
                [("file-mnemonic", PyVal.strV "orders"),
                 ("file-pattern", PyVal.noneV)])])])])]
    [("orders", PyVal.dictV
       [("source-container", PyVal.strV "sc"),
        ("destination-container", PyVal.strV "dc"),
        ("folder-mnemonic", PyVal.strV "fm"),
        ("files", PyVal.dictV
          [("f1", PyVal.dictV
             [("file-mnemonic", PyVal.strV "orders"),
              ("file-pattern", PyVal.noneV)])])])]
    [("source-container", PyVal.strV "sc"),
     ("destination-container", PyVal.strV "dc"),
     ("folder-mnemonic", PyVal.strV "fm"),
     ("files", PyVal.dictV
       [("f1", PyVal.dictV
          [("file-mnemonic", PyVal.strV "orders"),
           ("file-pattern", PyVal.noneV)])])]
    (some "acme") (some "orders")
    (PyVal.strV "sc") (PyVal.strV "dc") (PyVal.strV "fm")
    rfl rfl rfl rfl rfl rfl

/-- C7: for a file entry with mnemonic `m`, the candidate source blob name is
`m ++ "*"` when `file-pattern` is present and truthy, and `m ++ ".csv"` when
it is absent or present but falsy (`None`, empty string, empty dict). -/
theorem c7_candidate_source_blob_name (kvs : List (String × PyVal)) (m : String)
    (hm : kvs.lookup "file-mnemonic" = some (PyVal.strV m)) :
    (∀ p, kvs.lookup "file-pattern" = some p → p.truthy = true →
        candidateOfEntry (PyVal.dictV kvs) = .ok (m ++ "*")) ∧
    (kvs.lookup "file-pattern" = none →
        candidateOfEntry (PyVal.dictV kvs) = .ok (m ++ ".csv")) ∧
    (∀ p, kvs.lookup "file-pattern" = some p → p.truthy = false →
        candidateOfEntry (PyVal.dictV kvs) = .ok (m ++ ".csv")) := by
  refine ⟨fun p hp hpt => ?_, fun hp => ?_, fun p hp hpt => ?_⟩
  · simp [candidateOfEntry, PyVal.item, PyVal.getKey, PyVal.str, hm, hp, hpt]
  · simp [candidateOfEntry, PyVal.item, PyVal.getKey, PyVal.str, PyVal.truthy, hm, hp]
  · simp [candidateOfEntry, PyVal.item, PyVal.getKey, PyVal.str, hm, hp, hpt]

/-- C7 witness: a concrete entry with a `None` pattern yields the `.csv`
candidate. -/
theorem c7_candidate_source_blob_name_witness :
    [("file-mnemonic", PyVal.strV "orders"),
     ("file-pattern", PyVal.noneV)].lookup "file-mnemonic" =
      some (PyVal.strV "orders") ∧
    candidateOfEntry (PyVal.dictV [("file-mnemonic", PyVal.strV "orders"),
                                   ("file-pattern", PyVal.noneV)]) =
      .ok ("orders" ++ ".csv") :=
  ⟨rfl,
   (c7_candidate_source_blob_name
      [("file-mnemonic", PyVal.strV "orders"), ("file-pattern", PyVal.noneV)]
      "orders" rfl).2.2 PyVal.noneV rfl rfl⟩

/-- C10: a vendor or container entry that is present but falsy (`None`, an
empty dict, an empty string) is indistinguishable from an absent one:
`get_container_config` returns `None` and the handler answers `400`. -/
theorem c10_falsy_entries_indistinguishable (config : PyVal)
    (vkvs : List (String × PyVal)) (msg : HttpRequest)
    (hv : config.getD "vendors" (PyVal.dictV []) = .ok (PyVal.dictV vkvs))
    (hfalsy : (∃ v, lookupOpt vkvs (msg.getParam "vendor") = some v ∧ v.truthy = false) ∨
              (∃ ckvs c, lookupOpt vkvs (msg.getParam "vendor") = some (PyVal.dictV ckvs) ∧
                 lookupOpt ckvs (msg.getParam "container") = some c ∧ c.truthy = false)) :
    get_container_config config (msg.getParam "vendor") (msg.getParam "container") =
      .ok none ∧
    ∀ st, main (.ok config) msg st =
      ({ body := "Error: Configuration not found for vendor or container.",
         status_code := 400 }, st, []) := by
  have hgcc : get_container_config config (msg.getParam "vendor")
      (msg.getParam "container") = .ok none := by
    rcases hfalsy with ⟨v, hvend, hvt⟩ | ⟨ckvs, c, hvend, hcont, hct⟩
    · simp [get_container_config, hv, getOptKey_dictV, hvend, hvt]
    · cases ckvs with
      | nil =>
        exfalso
        cases hcp : msg.getParam "container" with
        | none => rw [hcp] at hcont; exact absurd hcont (by simp [lookupOpt])
        | some cname => rw [hcp] at hcont; exact absurd hcont (by simp [lookupOpt])
      | cons kv rest =>
        simp [get_container_config, hv, getOptKey_dictV, hvend, hcont, hct, truthy_dictV_cons]
  refine ⟨hgcc, fun st => ?_⟩
  simp only [main, mainExec, hgcc]

/-- C10 witness: `vendors["acme"]` present as an empty dict. -/
theorem c10_falsy_entries_indistinguishable_witness :
    get_container_config
        (PyVal.dictV [("vendors", PyVal.dictV [("acme", PyVal.dictV [])])])
        (some "acme") none =
      .ok none ∧
    main (.ok (PyVal.dictV [("vendors", PyVal.dictV [("acme", PyVal.dictV [])])]))
        { params := [("vendor", "acme")] } { containers := [], blobs := [] } =
      ({ body := "Error: Configuration not found for vendor or container.",
         status_code := 400 }, { containers := [], blobs := [] }, []) := by
  have h := c10_falsy_entries_indistinguishable
    (PyVal.dictV [("vendors", PyVal.dictV [("acme", PyVal.dictV [])])])
    [("acme", PyVal.dictV [])] { params := [("vendor", "acme")] }
    rfl (Or.inl ⟨PyVal.dictV [], rfl, rfl⟩)
  exact ⟨h.1, h.2 { containers := [], blobs := [] }⟩

end SftpToDataLake
